import Mathlib

/-!
Shallow embedding of the ai-agent-server repository: the four
safety-constrained MongoDB tools (src/server/tools/mongoTool.js,
mongoInsertTool.js, mongoDeleteTool.js, mongoUpdateTool.js) and the agent
orchestrator (src/server/agent.js).  Documents are association lists of
field names to flat values; the MongoDB driver and server are external
collaborators and are modelled by simple executable functions (filters as
equality conjunctions, pipelines as match/limit/project stages).
-/

/-- A BSON-ish scalar value stored in a document field.  An oid is a
generated ObjectId, identified by the counter value that produced it. -/
inductive Value where
  | str (s : String)
  | num (n : Int)
  | bool (b : Bool)
  | oid (n : Nat)
deriving DecidableEq, Repr

/-- JavaScript truthiness of a value (empty string, 0 and false are falsy). -/
def Value.truthy : Value → Bool
  | .str s => s ≠ ""
  | .num n => n ≠ 0
  | .bool b => b
  | .oid _ => true

/-- A document: an association list from field name to value. -/
abbrev Doc := List (String × Value)

/-- A query filter, modelled as a conjunction of field equalities (the
store model of a MongoDB query object; an empty list is the empty filter). -/
abbrev MFilter := List (String × Value)

/-- First value bound to a field name in a document. -/
def Doc.get : Doc → String → Option Value
  | [], _ => none
  | (k', v) :: rest, k => if k' = k then some v else Doc.get rest k

/-- Set a field, replacing it in place when present and appending otherwise
(the behaviour of a JavaScript object spread followed by the key). -/
def Doc.set : Doc → String → Value → Doc
  | [], k, v => [(k, v)]
  | (k', v') :: rest, k, v =>
      if k' = k then (k, v) :: rest else (k', v') :: Doc.set rest k v

/-- Truthiness of a field access on a document (absent fields are falsy). -/
def Doc.truthyField (d : Doc) (k : String) : Bool :=
  match d.get k with
  | none => false
  | some v => v.truthy

/-- Whether a document satisfies every equality of a filter (store model of
MongoDB filter matching; the empty filter matches every document). -/
def filterMatches (f : MFilter) (d : Doc) : Bool :=
  f.all fun kv => d.get kv.1 == some kv.2

/-- Projection of a document, modelling a MongoDB inclusion projection as a
list of included field names; the empty list is the empty projection object
and leaves the document unchanged (the `_id` field is always kept). -/
def project (fields : List String) (d : Doc) : Doc :=
  if fields = [] then d
  else d.filter fun kv => fields.contains kv.1 || kv.1 == "_id"

/-- A stage of an aggregation pipeline (store model: match, limit and
project stages suffice for this development). -/
inductive Stage where
  | smatch (f : MFilter)
  | slimit (n : Nat)
  | sproject (fields : List String)
deriving DecidableEq, Repr

/-- Store model of running one aggregation stage over a collection. -/
def runStage : Stage → List Doc → List Doc
  | .smatch f, l => l.filter (filterMatches f)
  | .slimit n, l => l.take n
  | .sproject fs, l => l.map (project fs)

/-- Store model of running an aggregation pipeline over a collection. -/
def runPipeline : List Stage → List Doc → List Doc
  | [], l => l
  | s :: rest, l => runPipeline rest (runStage s l)

/-- Store model of deleteOne: remove the first document matching the filter. -/
def removeFirstMatch (f : MFilter) : List Doc → List Doc
  | [] => []
  | d :: rest => if filterMatches f d then rest else d :: removeFirstMatch f rest

/-- Store model of applying the fields of a set-object onto a document. -/
def applySet (fields : List (String × Value)) (d : Doc) : Doc :=
  fields.foldl (fun acc kv => Doc.set acc kv.1 kv.2) d

/-- One value of an update document: either a flat value or a nested object
(one nesting level suffices to write operator payloads such as set-objects). -/
inductive UpdateVal where
  | prim (v : Value)
  | obj (fields : List (String × Value))
deriving DecidableEq, Repr

/-- An update argument: the JSON object passed as the `update` parameter,
either operator-style entries (keys beginning with the `$` sigil) or a plain
replacement document. -/
abbrev UpdateArg := List (String × UpdateVal)

/-- Store model of applying an operator-style update document: only the
set operator is modelled; other operator entries leave the document as is. -/
def applyUpdateOps (u : UpdateArg) (d : Doc) : Doc :=
  u.foldl
    (fun acc kuv =>
      if kuv.1 = "$set" then
        match kuv.2 with
        | .obj fs => applySet fs acc
        | .prim _ => acc
      else acc)
    d

/-- Flatten an update argument into a plain document (store model: nested
object values are dropped; used for replaceOne replacement documents). -/
def UpdateArg.toDoc (u : UpdateArg) : Doc :=
  u.filterMap fun kuv =>
    match kuv.2 with
    | .prim v => some (kuv.1, v)
    | .obj _ => none

/-- Store model of transforming the first document matching a filter. -/
def updateFirstMatch (f : MFilter) (g : Doc → Doc) : List Doc → List Doc
  | [] => []
  | d :: rest =>
      if filterMatches f d then g d :: rest else d :: updateFirstMatch f g rest

/-- The query argument of the read tool: a MongoDB query object (a filter)
or an aggregation pipeline array; the JavaScript code distinguishes the two
with an array check. -/
inductive QueryArg where
  | qobj (f : MFilter)
  | qarr (stages : List Stage)
deriving DecidableEq, Repr

/-- Parameters of fetch_mongodb_data (src/server/tools/mongoTool.js); the
optional fields carry the same defaults the destructuring in execute uses. -/
structure QueryParams where
  collection : String
  operation : String
  query : QueryArg := .qobj []
  limit : Option Nat := none
  fields : List String := []
  field : Option String := none
deriving Repr

/-- The data payload of a successful query outcome: a list of documents,
a list of distinct values, an optional single document, or a number. -/
inductive QueryData where
  | docs (l : List Doc)
  | vals (l : List Value)
  | docOpt (d : Option Doc)
  | num (n : Nat)
deriving DecidableEq, Repr

/-- The JavaScript count field of the query outcome:
Array.isArray(result) ? result.length : (result ? 1 : 0). -/
def QueryData.jsCount : QueryData → Nat
  | .docs l => l.length
  | .vals l => l.length
  | .docOpt (some _) => 1
  | .docOpt none => 0
  | .num n => if n = 0 then 0 else 1

/-- A successful outcome of the query tool. -/
structure QueryOk where
  operation : String
  collection : String
  count : Nat
  data : QueryData
deriving DecidableEq, Repr

/-- Outcome of the query tool: success payload or structured failure. -/
inductive QueryResult where
  | ok (r : QueryOk)
  | err (error operation collection : String)
deriving DecidableEq, Repr

/-- The count field of a query outcome, when it succeeded. -/
def QueryResult.countOf : QueryResult → Option Nat
  | .ok r => some r.count
  | .err _ _ _ => none

/-- Whether a query outcome is a success. -/
def QueryResult.isSuccess : QueryResult → Bool
  | .ok _ => true
  | .err _ _ _ => false

/-- MongoTool.execute (src/server/tools/mongoTool.js lines 42 to 108).
The connected flag mirrors mongoDb.isConnected; docs is the content of the
named collection.  Every thrown error is caught and returned as a failure
outcome, so the embedding returns the caught message directly. -/
def MongoTool.execute (connected : Bool) (p : QueryParams) (docs : List Doc) :
    QueryResult :=
  let limit := p.limit.getD 10
  if ¬connected then .err "Database not connected" p.operation p.collection
  else if p.operation = "find" then
    match p.query with
    | .qobj f =>
        let r := ((docs.filter (filterMatches f)).map (project p.fields)).take
          (min limit 100)
        .ok ⟨p.operation, p.collection, (QueryData.docs r).jsCount, .docs r⟩
    | .qarr _ =>
        -- store model: the driver rejects an array query filter
        .err "Query filter must be a plain object" p.operation p.collection
  else if p.operation = "findOne" then
    match p.query with
    | .qobj f =>
        let r := (docs.find? (filterMatches f)).map (project p.fields)
        .ok ⟨p.operation, p.collection, (QueryData.docOpt r).jsCount, .docOpt r⟩
    | .qarr _ =>
        .err "Query filter must be a plain object" p.operation p.collection
  else if p.operation = "count" then
    match p.query with
    | .qobj f =>
        let n := (docs.filter (filterMatches f)).length
        .ok ⟨p.operation, p.collection, (QueryData.num n).jsCount, .num n⟩
    | .qarr _ =>
        .err "Query filter must be a plain object" p.operation p.collection
  else if p.operation = "distinct" then
    if (match p.field with | some s => s == "" | none => true) then
      .err "Field parameter required for distinct operation" p.operation
        p.collection
    else
      match p.query, p.field with
      | .qobj f, some fld =>
          let vs := ((docs.filter (filterMatches f)).filterMap
            (fun d => d.get fld)).dedup
          .ok ⟨p.operation, p.collection, (QueryData.vals vs).jsCount, .vals vs⟩
      | _, _ =>
          .err "Query filter must be a plain object" p.operation p.collection
  else if p.operation = "aggregate" then
    match p.query with
    | .qarr stages =>
        let r := (runPipeline stages docs).take limit
        .ok ⟨p.operation, p.collection, (QueryData.docs r).jsCount, .docs r⟩
    | .qobj _ =>
        .err "Query must be an aggregation pipeline array for aggregate operation"
          p.operation p.collection
  else
    .err ("Unsupported operation: " ++ p.operation) p.operation p.collection

/-- The data argument of insert_mongodb_data: a single document object or
an array of documents; the JavaScript code distinguishes with Array.isArray. -/
inductive InsertData where
  | one (d : Doc)
  | many (ds : List Doc)
deriving DecidableEq, Repr

/-- Parameters of insert_mongodb_data (src/server/tools/mongoInsertTool.js). -/
structure InsertParams where
  collection : String
  operation : String
  data : InsertData
  generateId : Option Bool := none
deriving Repr

/-- A successful outcome of the insert tool. -/
structure InsertOk where
  operation : String
  collection : String
  insertedCount : Nat
  insertedIds : List Value
  data : InsertData
deriving DecidableEq, Repr

/-- Outcome of the insert tool. -/
inductive InsertResult where
  | ok (r : InsertOk)
  | err (error operation collection : String)
deriving DecidableEq, Repr

/-- Tool-level id generation for insertMany: the JavaScript map
data.map(doc => doc._id ? doc : spread of doc with a fresh ObjectId), with
the ObjectId supply threaded as a counter. -/
def genIds : List Doc → Nat → List Doc × Nat
  | [], fresh => ([], fresh)
  | d :: rest, fresh =>
      if d.truthyField "_id" then
        (d :: (genIds rest fresh).1, (genIds rest fresh).2)
      else
        (d.set "_id" (.oid fresh) :: (genIds rest (fresh + 1)).1,
          (genIds rest (fresh + 1)).2)

/-- Store model of the driver preparing documents for insertion: a document
whose _id field is absent receives a fresh generated ObjectId. -/
def driverIds : List Doc → Nat → List Doc × Nat
  | [], fresh => ([], fresh)
  | d :: rest, fresh =>
      match d.get "_id" with
      | some _ => (d :: (driverIds rest fresh).1, (driverIds rest fresh).2)
      | none =>
          (d.set "_id" (.oid fresh) :: (driverIds rest (fresh + 1)).1,
            (driverIds rest (fresh + 1)).2)

/-- MongoInsertTool.execute (src/server/tools/mongoInsertTool.js lines 36
to 104).  Returns the outcome, the new collection content, and the next
value of the ObjectId supply. -/
def MongoInsertTool.execute (connected : Bool) (p : InsertParams)
    (docs : List Doc) (fresh : Nat) : InsertResult × List Doc × Nat :=
  let generateId := p.generateId.getD true
  if ¬connected then
    (.err "Database not connected" p.operation p.collection, docs, fresh)
  else if p.operation = "insertOne" then
    match p.data with
    | .many _ =>
        (.err "Use insertMany operation for array data" p.operation
          p.collection, docs, fresh)
    | .one d =>
        let gen := generateId && !(d.truthyField "_id")
        let processed := if gen then d.set "_id" (.oid fresh) else d
        let fresh1 := if gen then fresh + 1 else fresh
        -- store model: the driver generates an ObjectId when _id is absent
        match processed.get "_id" with
        | some v =>
            (.ok ⟨p.operation, p.collection, 1, [v], .one processed⟩,
              docs ++ [processed], fresh1)
        | none =>
            (.ok ⟨p.operation, p.collection, 1, [.oid fresh1],
                .one (processed.set "_id" (.oid fresh1))⟩,
              docs ++ [processed.set "_id" (.oid fresh1)], fresh1 + 1)
  else if p.operation = "insertMany" then
    match p.data with
    | .one _ =>
        (.err "insertMany requires an array of documents" p.operation
          p.collection, docs, fresh)
    | .many ds =>
        if ds.length > 100 then
          (.err "Cannot insert more than 100 documents at once" p.operation
            p.collection, docs, fresh)
        else
          let processed := if generateId then (genIds ds fresh).1 else ds
          let fresh1 := if generateId then (genIds ds fresh).2 else fresh
          let finalDocs := (driverIds processed fresh1).1
          (.ok ⟨p.operation, p.collection, finalDocs.length,
              finalDocs.filterMap (fun d => d.get "_id"), .many finalDocs⟩,
            docs ++ finalDocs, (driverIds processed fresh1).2)
  else
    (.err ("Unsupported operation: " ++ p.operation) p.operation p.collection,
      docs, fresh)

/-- Parameters of delete_mongodb_data (src/server/tools/mongoDeleteTool.js);
confirmDeletion and safeMode carry the destructuring defaults false and
true via getD. -/
structure DeleteParams where
  collection : String
  operation : String
  filter : MFilter := []
  confirmDeletion : Option Bool := none
  safeMode : Option Bool := none
deriving Repr

/-- A successful outcome of the delete tool; the optional fields mirror the
two success object shapes in the JavaScript code (the early no-match return
carries a message and no documentsDeleted or filter echo). -/
structure DeleteOk where
  operation : String
  collection : String
  deletedCount : Nat
  message : Option String := none
  documentsDeleted : Option (List Doc) := none
  filter : Option MFilter := none
deriving DecidableEq, Repr

/-- Outcome of the delete tool. -/
inductive DeleteResult where
  | ok (r : DeleteOk)
  | err (error operation collection : String)
deriving DecidableEq, Repr

/-- Whether a delete outcome is a success. -/
def DeleteResult.isSuccess : DeleteResult → Bool
  | .ok _ => true
  | .err _ _ _ => false

/-- MongoDeleteTool.execute (src/server/tools/mongoDeleteTool.js lines 41
to 115).  Returns the outcome and the new collection content; a thrown
error is caught and returned as a failure outcome with the store untouched. -/
def MongoDeleteTool.execute (connected : Bool) (p : DeleteParams)
    (docs : List Doc) : DeleteResult × List Doc :=
  let confirmDeletion := p.confirmDeletion.getD false
  let safeMode := p.safeMode.getD true
  if ¬connected then
    (.err "Database not connected" p.operation p.collection, docs)
  else if ¬confirmDeletion then
    (.err "Deletion requires explicit confirmation. Set confirmDeletion: true"
      p.operation p.collection, docs)
  else if p.filter = [] then
    (.err "Empty filter not allowed. To delete all documents, specify a filter like \x7b_id: \x7b$exists: true\x7d\x7d"
      p.operation p.collection, docs)
  else if p.operation = "deleteMany" ∧ safeMode = true ∧
      (docs.filter (filterMatches p.filter)).length > 10 then
    (.err ("Safe mode: Cannot delete " ++
        toString (docs.filter (filterMatches p.filter)).length ++
        " documents at once. Maximum 10 allowed. Set safeMode: false to override.")
      p.operation p.collection, docs)
  else
    let documentsToDelete := (docs.filter (filterMatches p.filter)).take
      (if p.operation = "deleteOne" then 1 else 100)
    if documentsToDelete.length = 0 then
      (.ok ⟨p.operation, p.collection, 0,
        some "No documents matched the filter criteria", none, none⟩, docs)
    else if p.operation = "deleteOne" then
      (.ok ⟨p.operation, p.collection, 1, none,
          some (documentsToDelete.take 1), some p.filter⟩,
        removeFirstMatch p.filter docs)
    else if p.operation = "deleteMany" then
      let n := (docs.filter (filterMatches p.filter)).length
      (.ok ⟨p.operation, p.collection, n, none,
          some (documentsToDelete.take n), some p.filter⟩,
        docs.filter (fun d => !(filterMatches p.filter d)))
    else
      (.err ("Unsupported operation: " ++ p.operation) p.operation
        p.collection, docs)

/-- The options argument of update_mongodb_data, with the two boolean
options the JavaScript code reads (both falsy by default). -/
structure UpdateOptions where
  upsert : Option Bool := none
  allowBulkUpdate : Option Bool := none
deriving Repr

/-- Parameters of update_mongodb_data (the update tool source). -/
structure UpdateParams where
  collection : String
  operation : String
  filter : MFilter
  update : UpdateArg
  options : UpdateOptions := {}
deriving Repr

/-- A successful outcome of the update tool; the optional fields mirror the
two success object shapes in the JavaScript code (the early no-match return
carries a message and none of the count or snapshot fields). -/
structure UpdateOk where
  operation : String
  collection : String
  matchedCount : Nat
  modifiedCount : Nat
  message : Option String := none
  upsertedCount : Option Nat := none
  upsertedId : Option Value := none
  originalDocuments : Option (List Doc) := none
  updatedDocuments : Option (List Doc) := none
  filter : Option MFilter := none
deriving DecidableEq, Repr

/-- Outcome of the update tool. -/
inductive UpdateResult where
  | ok (r : UpdateOk)
  | err (error operation collection : String)
deriving DecidableEq, Repr

/-- Whether an update outcome is a success. -/
def UpdateResult.isSuccess : UpdateResult → Bool
  | .ok _ => true
  | .err _ _ _ => false

/-- MongoUpdateTool.execute (the update tool source, lines 46 to 134).
Returns the outcome and the new collection content.  Store model notes: an
update applies its set-operator entries; an upsert inserts the filter
equalities with the update applied; replaceOne keeps the original _id when
the replacement document lacks one. -/
def MongoUpdateTool.execute (connected : Bool) (p : UpdateParams)
    (docs : List Doc) : UpdateResult × List Doc :=
  let upsert := p.options.upsert.getD false
  let allowBulkUpdate := p.options.allowBulkUpdate.getD false
  if ¬connected then
    (.err "Database not connected" p.operation p.collection, docs)
  else if p.filter = [] then
    (.err "Filter is required and cannot be empty for update operations"
      p.operation p.collection, docs)
  else
    let documentsToUpdate := (docs.filter (filterMatches p.filter)).take
      (if p.operation = "updateOne" then 1 else 100)
    if documentsToUpdate.length = 0 ∧ upsert = false then
      (.ok ⟨p.operation, p.collection, 0, 0,
        some "No documents matched the filter criteria",
        none, none, none, none, none⟩, docs)
    else
      let matched := (docs.filter (filterMatches p.filter)).length
      let finish (newDocs : List Doc) (matchedCount modifiedCount : Nat)
          (upsertedCount : Nat) (upsertedId : Option Value) :
          UpdateResult × List Doc :=
        let updatedDocuments := (newDocs.filter (filterMatches p.filter)).take
          (if p.operation = "updateOne" then 1 else 10)
        (.ok ⟨p.operation, p.collection, matchedCount, modifiedCount, none,
            some upsertedCount, upsertedId,
            some (documentsToUpdate.take 10), some updatedDocuments,
            some p.filter⟩, newDocs)
      if p.operation = "updateOne" then
        if matched = 0 then
          -- upsert: store model inserts the filter with the update applied
          let newDoc := applyUpdateOps p.update p.filter
          finish (docs ++ [newDoc]) 0 0 1 (newDoc.get "_id")
        else
          finish (updateFirstMatch p.filter (applyUpdateOps p.update) docs)
            1 1 0 none
      else if p.operation = "updateMany" then
        if documentsToUpdate.length > 50 ∧ allowBulkUpdate = false then
          (.err ("Attempting to update " ++ toString documentsToUpdate.length ++
              " documents. Add allowBulkUpdate: true in options to proceed.")
            p.operation p.collection, docs)
        else if matched = 0 then
          let newDoc := applyUpdateOps p.update p.filter
          finish (docs ++ [newDoc]) 0 0 1 (newDoc.get "_id")
        else
          finish (docs.map fun d =>
              if filterMatches p.filter d then applyUpdateOps p.update d else d)
            matched matched 0 none
      else if p.operation = "replaceOne" then
        if p.update.any (fun kuv => kuv.1.startsWith "$") then
          (.err "replaceOne operation cannot use update operators ($set, $inc, etc.). Use updateOne instead."
            p.operation p.collection, docs)
        else
          let rep (d : Doc) : Doc :=
            match (UpdateArg.toDoc p.update).get "_id", d.get "_id" with
            | none, some v => (UpdateArg.toDoc p.update).set "_id" v
            | _, _ => UpdateArg.toDoc p.update
          if matched = 0 then
            let newDoc := UpdateArg.toDoc p.update
            finish (docs ++ [newDoc]) 0 0 1 (newDoc.get "_id")
          else
            finish (updateFirstMatch p.filter rep docs) 1 1 0 none
      else
        (.err ("Unsupported operation: " ++ p.operation) p.operation
          p.collection, docs)

/-- A JSON value, used for tool parameter schemas, tool arguments and tool
result payloads at the orchestrator boundary. -/
inductive Json where
  | null
  | bool (b : Bool)
  | num (n : Int)
  | str (s : String)
  | arr (l : List Json)
  | obj (fields : List (String × Json))

mutual
/-- Serialization of a JSON value, modelling JSON.stringify. -/
def Json.stringify : Json → String
  | .null => "null"
  | .bool b => if b then "true" else "false"
  | .num n => toString n
  | .str s => "\"" ++ s ++ "\""
  | .arr l => "[" ++ stringifyItems l ++ "]"
  | .obj fields => "\x7b" ++ stringifyFields fields ++ "\x7d"

def stringifyItems : List Json → String
  | [] => ""
  | [j] => Json.stringify j
  | j :: rest => Json.stringify j ++ "," ++ stringifyItems rest

def stringifyFields : List (String × Json) → String
  | [] => ""
  | [kj] => "\"" ++ kj.1 ++ "\":" ++ Json.stringify kj.2
  | kj :: rest =>
      "\"" ++ kj.1 ++ "\":" ++ Json.stringify kj.2 ++ "," ++
        stringifyFields rest
end

/-- A registered tool as the orchestrator sees it: the declarative contract
fields (name, description, parameter schema) plus the executable action.
The action takes the parsed arguments and either returns a structured
outcome object or raises an exception carrying a message. -/
structure RegTool where
  name : String
  description : String
  parameters : Json
  run : Json → Except String Json

/-- The registry: a JavaScript Map from tool name to tool, as an ordered
association list with unique keys. -/
abbrev Registry := List (String × RegTool)

/-- JavaScript Map.set: replace the value in place when the key is present,
append otherwise. -/
def mapSet {α : Type} : List (String × α) → String → α → List (String × α)
  | [], k, v => [(k, v)]
  | (k', v') :: rest, k, v =>
      if k' = k then (k, v) :: rest else (k', v') :: mapSet rest k v

/-- JavaScript Map.get as an association-list lookup. -/
def mapGet {α : Type} : List (String × α) → String → Option α
  | [], _ => none
  | (k', v) :: rest, k => if k' = k then some v else mapGet rest k

/-- A tool-call request produced by the model: the call id, the function
name, and the result of JSON.parse on the arguments string (an exception
during parsing is carried as the error message it raises). -/
structure ToolCall where
  id : String
  name : String
  arguments : Except String Json

/-- One entry of a conversation history (src/server/agent.js pushes plain
objects with these fields; absent fields are none). -/
structure Message where
  role : String
  content : Option String
  tool_calls : Option (List ToolCall) := none
  tool_call_id : Option String := none

/-- The mutable state of an AIAgent: the tool registry and the
conversation history (src/server/agent.js constructor). -/
structure AgentState where
  tools : Registry := []
  conversationHistory : List Message := []

/-- AIAgent.registerTool (src/server/agent.js lines 25 to 28):
this.tools.set(tool.name, tool). -/
def registerTool (st : AgentState) (tool : RegTool) : AgentState :=
  { st with tools := mapSet st.tools tool.name tool }

/-- The entry getToolInfo builds for one tool. -/
structure ToolInfo where
  name : String
  description : String
  parameters : Json

/-- AIAgent.getToolInfo (src/server/agent.js lines 200 to 210): a mapping
from tool name to name, description and parameters. -/
def getToolInfo (st : AgentState) : List (String × ToolInfo) :=
  st.tools.map fun nt => (nt.1, ⟨nt.2.name, nt.2.description, nt.2.parameters⟩)

/-- The orchestrator-synthesized failure payload for a tool call whose
execution raised: success false plus the error message. -/
def failureJson (m : String) : Json :=
  .obj [("success", .bool false), ("error", .str m)]

/-- One element of the results list of executeToolCalls. -/
structure ToolCallResult where
  tool_call_id : String
  tool_name : String
  result : Json

/-- Execution of a single tool call inside the per-call try of
AIAgent.executeToolCalls (src/server/agent.js lines 149 to 182): parse the
arguments, look the tool up by name (an unknown name raises), invoke the
action, and convert any raised exception into a failure payload. -/
def execOneCall (tools : Registry) (tc : ToolCall) : ToolCallResult :=
  match tc.arguments with
  | .error m => ⟨tc.id, tc.name, failureJson m⟩
  | .ok args =>
      match mapGet tools tc.name with
      | none => ⟨tc.id, tc.name, failureJson ("Unknown tool: " ++ tc.name)⟩
      | some tool =>
          match tool.run args with
          | .error m => ⟨tc.id, tc.name, failureJson m⟩
          | .ok r => ⟨tc.id, tc.name, r⟩

/-- AIAgent.executeToolCalls (src/server/agent.js lines 146 to 186): the
sequential loop over the batch, one result pushed per call. -/
def executeToolCalls (tools : Registry) (toolCalls : List ToolCall) :
    List ToolCallResult :=
  toolCalls.map (execOneCall tools)

/-- A model response as the orchestrator consumes it: optional content and
the list of requested tool calls (absent tool_calls is the empty list). -/
structure LLMResponse where
  content : Option String
  tool_calls : List ToolCall := []

/-- The value processMessage returns on a successful turn. -/
structure TurnResult where
  success : Bool
  response : Option String
  toolsUsed : List String
  toolResults : List Json

/-- The tool message pushed for one tool result (src/server/agent.js lines
90 to 96). -/
def toolMessage (tr : ToolCallResult) : Message :=
  { role := "tool", content := some tr.result.stringify,
    tool_call_id := some tr.tool_call_id }

/-- AIAgent.processMessage (src/server/agent.js lines 36 to 143) on a turn
in which both model calls return normally; the two model responses are the
inputs resp (first round, tools attached) and finalContent (second round).
Returns the new agent state and the returned value. -/
def processMessage (st : AgentState) (userMessage : String)
    (resp : LLMResponse) (finalContent : Option String) :
    AgentState × TurnResult :=
  let hist1 := st.conversationHistory ++
    [{ role := "user", content := some userMessage }]
  if resp.tool_calls.length > 0 then
    let toolResults := executeToolCalls st.tools resp.tool_calls
    let hist2 := hist1 ++
      [{ role := "assistant",
         content := some ((resp.content.getD "")),
         tool_calls := some resp.tool_calls }]
    let hist3 := hist2 ++ toolResults.map toolMessage
    let hist4 := hist3 ++ [{ role := "assistant", content := finalContent }]
    ({ st with conversationHistory := hist4 },
      { success := true, response := finalContent,
        toolsUsed := resp.tool_calls.map (·.name),
        toolResults := toolResults.map (·.result) })
  else
    let hist2 := hist1 ++ [{ role := "assistant", content := resp.content }]
    ({ st with conversationHistory := hist2 },
      { success := true, response := resp.content,
        toolsUsed := [], toolResults := [] })

/-- A concrete collection of 150 distinct one-field documents. -/
def docs150 : List Doc :=
  (List.range 150).map fun i => [("i", Value.num (Int.ofNat i))]

/-- A concrete collection of 11 documents all matching the filter on field
a equal to 1. -/
def docs11 : List Doc :=
  (List.range 11).map fun i => [("a", Value.num 1), ("i", Value.num (Int.ofNat i))]

/-- A concrete tool named t with description old. -/
def toolOldT : RegTool := ⟨"t", "old", .null, fun _ => .ok .null⟩

/-- A concrete tool named t with description new. -/
def toolNewT : RegTool := ⟨"t", "new", .null, fun _ => .ok .null⟩

/-- An agent state holding only the tool named t with description old. -/
def stWithOld : AgentState := registerTool {} toolOldT

/-- Number of documents among the first i of a batch whose _id field is not
truthy: the amount of the ObjectId supply the tool consumes before it
reaches position i. -/
def nonTruthyBefore (ds : List Doc) (i : Nat) : Nat :=
  ((ds.take i).filter fun d => !(d.truthyField "_id")).length

/-- Number of documents among the first i of a batch whose _id field is
absent: the amount of the ObjectId supply the driver consumes before it
reaches position i. -/
def absentBefore (ds : List Doc) (i : Nat) : Nat :=
  ((ds.take i).filter fun d => (d.get "_id").isNone).length

/-- A concrete registry holding only the tool named t. -/
def registry0 : Registry := [("t", toolOldT)]

/-- A concrete tool call addressed to a name absent from registry0. -/
def callUnknown : ToolCall := ⟨"id1", "missing", .ok .null⟩

/-- A concrete tool call addressed to the registered tool t. -/
def callKnown : ToolCall := ⟨"id2", "t", .ok .null⟩

/-- C1: the claim fails on the code for the aggregate operation: an
aggregate call with an empty pipeline and a requested limit of 150 on a
collection of 150 documents succeeds with 150 documents in its data — the
code applies the requested limit to the aggregation cursor without the
min(limit, 100) cap that the find branch enforces, although the tool's own
parameter schema declares maximum 100 for the limit. -/
theorem aggregate_uncapped_at_150 :
    (MongoTool.execute true
        { collection := "users", operation := "aggregate",
          query := .qarr [], limit := some 150 } docs150).countOf
      = some 150 := by
  set_option maxRecDepth 4000 in decide

/-- C3: a delete call (deleteOne or deleteMany) whose confirmDeletion is
not true (absent or false) returns the confirmation failure outcome and
leaves the collection unchanged, for every filter, including one that
matches documents. -/
theorem delete_requires_confirmation (c op : String) (f : MFilter)
    (conf safe : Option Bool) (docs : List Doc)
    (hop : op = "deleteOne" ∨ op = "deleteMany")
    (hconf : conf.getD false = false) :
    MongoDeleteTool.execute true
      { collection := c, operation := op, filter := f,
        confirmDeletion := conf, safeMode := safe } docs
    = (.err "Deletion requires explicit confirmation. Set confirmDeletion: true"
        op c, docs) := by
  simp [MongoDeleteTool.execute, hconf]

/-- C3 witness: a deleteOne call with a filter matching a document and
confirmDeletion absent fails with the confirmation error and deletes
nothing. -/
theorem delete_requires_confirmation_witness :
    ((("deleteOne" : String) = "deleteOne" ∨ ("deleteOne" : String) = "deleteMany")
      ∧ (Option.getD (none : Option Bool) false = false))
    ∧ MongoDeleteTool.execute true
        { collection := "users", operation := "deleteOne",
          filter := [("a", .num 1)], confirmDeletion := none }
        [[("a", Value.num 1)]]
      = (.err "Deletion requires explicit confirmation. Set confirmDeletion: true"
          "deleteOne" "users", [[("a", Value.num 1)]]) :=
  ⟨⟨Or.inl rfl, rfl⟩,
    delete_requires_confirmation "users" "deleteOne" [("a", .num 1)] none none
      [[("a", Value.num 1)]] (Or.inl rfl) rfl⟩

/-- C4: an empty filter object is a validation failure for every update
operation and for every confirmed delete operation, and the collection is
left unchanged. -/
theorem empty_filter_rejected (c opU opD : String) (u : UpdateArg)
    (opts : UpdateOptions) (safe : Option Bool) (docs : List Doc)
    (hopU : opU = "updateOne" ∨ opU = "updateMany" ∨ opU = "replaceOne")
    (hopD : opD = "deleteOne" ∨ opD = "deleteMany") :
    MongoUpdateTool.execute true
      { collection := c, operation := opU, filter := [], update := u,
        options := opts } docs
      = (.err "Filter is required and cannot be empty for update operations"
          opU c, docs)
    ∧ MongoDeleteTool.execute true
        { collection := c, operation := opD, filter := [],
          confirmDeletion := some true, safeMode := safe } docs
      = (.err "Empty filter not allowed. To delete all documents, specify a filter like \x7b_id: \x7b$exists: true\x7d\x7d"
          opD c, docs) := by
  constructor
  · simp [MongoUpdateTool.execute]
  · simp [MongoDeleteTool.execute]

/-- C4 witness: updateMany and deleteMany with the empty filter both fail
validation on a non-empty collection and change nothing. -/
theorem empty_filter_rejected_witness :
    ((("updateMany" : String) = "updateOne" ∨ ("updateMany" : String) = "updateMany"
        ∨ ("updateMany" : String) = "replaceOne")
      ∧ (("deleteMany" : String) = "deleteOne" ∨ ("deleteMany" : String) = "deleteMany"))
    ∧ (MongoUpdateTool.execute true
        { collection := "users", operation := "updateMany", filter := [],
          update := [("$set", .obj [("a", .num 2)])] } [[("a", Value.num 1)]]
      = (.err "Filter is required and cannot be empty for update operations"
          "updateMany" "users", [[("a", Value.num 1)]])
    ∧ MongoDeleteTool.execute true
        { collection := "users", operation := "deleteMany", filter := [],
          confirmDeletion := some true } [[("a", Value.num 1)]]
      = (.err "Empty filter not allowed. To delete all documents, specify a filter like \x7b_id: \x7b$exists: true\x7d\x7d"
          "deleteMany" "users", [[("a", Value.num 1)]])) :=
  ⟨⟨Or.inr (Or.inl rfl), Or.inr rfl⟩,
    empty_filter_rejected "users" "updateMany" "deleteMany"
      [("$set", .obj [("a", .num 2)])] {} none [[("a", Value.num 1)]]
      (Or.inr (Or.inl rfl)) (Or.inr rfl)⟩

/-- C10: an update call whose non-empty filter matches no documents, with
upsert left off, and a confirmed delete call whose non-empty filter matches
no documents, both return the early no-match success outcome with zero
counts and leave the collection untouched. -/
theorem no_match_no_write (c opU opD : String) (f : MFilter) (u : UpdateArg)
    (opts : UpdateOptions) (safe : Option Bool) (docs : List Doc)
    (hopU : opU = "updateOne" ∨ opU = "updateMany" ∨ opU = "replaceOne")
    (hopD : opD = "deleteOne" ∨ opD = "deleteMany")
    (hf : f ≠ [])
    (hmatch : docs.filter (filterMatches f) = [])
    (hupsert : opts.upsert.getD false = false) :
    MongoUpdateTool.execute true
      { collection := c, operation := opU, filter := f, update := u,
        options := opts } docs
      = (.ok ⟨opU, c, 0, 0, some "No documents matched the filter criteria",
          none, none, none, none, none⟩, docs)
    ∧ MongoDeleteTool.execute true
        { collection := c, operation := opD, filter := f,
          confirmDeletion := some true, safeMode := safe } docs
      = (.ok ⟨opD, c, 0, some "No documents matched the filter criteria",
          none, none⟩, docs) := by
  constructor
  · simp [MongoUpdateTool.execute, hf, hmatch, hupsert]
  · simp [MongoDeleteTool.execute, hf, hmatch]

/-- C10 witness: updateMany and deleteMany with a non-empty filter matching
nothing report zero matched, modified and deleted counts and change
nothing. -/
theorem no_match_no_write_witness :
    ((("updateMany" : String) = "updateOne" ∨ ("updateMany" : String) = "updateMany"
        ∨ ("updateMany" : String) = "replaceOne")
      ∧ (("deleteMany" : String) = "deleteOne" ∨ ("deleteMany" : String) = "deleteMany")
      ∧ ([(("b" : String), Value.num 9)] ≠ [])
      ∧ ([[(("a" : String), Value.num 1)]].filter
          (filterMatches [("b", Value.num 9)]) = [])
      ∧ (Option.getD ({} : UpdateOptions).upsert false = false))
    ∧ (MongoUpdateTool.execute true
        { collection := "users", operation := "updateMany",
          filter := [("b", .num 9)],
          update := [("$set", .obj [("a", .num 2)])] } [[("a", Value.num 1)]]
      = (.ok ⟨"updateMany", "users", 0, 0,
          some "No documents matched the filter criteria",
          none, none, none, none, none⟩, [[("a", Value.num 1)]])
    ∧ MongoDeleteTool.execute true
        { collection := "users", operation := "deleteMany",
          filter := [("b", .num 9)], confirmDeletion := some true }
        [[("a", Value.num 1)]]
      = (.ok ⟨"deleteMany", "users", 0,
          some "No documents matched the filter criteria",
          none, none⟩, [[("a", Value.num 1)]])) :=
  ⟨⟨Or.inr (Or.inl rfl), Or.inr rfl, by decide, by decide, rfl⟩,
    no_match_no_write "users" "updateMany" "deleteMany" [("b", .num 9)]
      [("$set", .obj [("a", .num 2)])] {} none [[("a", Value.num 1)]]
      (Or.inr (Or.inl rfl)) (Or.inr rfl) (by decide) (by decide) rfl⟩

/-- C2: a deleteMany call with confirmation, a non-empty filter matching
more than 10 documents, and safeMode left at its default fails with the
safe-mode guard error naming the matched count and deletes nothing; the
same call with safeMode explicitly false succeeds, its deletedCount is the
number of matching documents, and exactly the matching documents are
removed. -/
theorem deleteMany_safe_mode (c : String) (f : MFilter) (docs : List Doc)
    (hf : f ≠ [])
    (hn : 10 < (docs.filter (filterMatches f)).length) :
    (MongoDeleteTool.execute true
        { collection := c, operation := "deleteMany", filter := f,
          confirmDeletion := some true } docs
      = (.err ("Safe mode: Cannot delete " ++
            toString (docs.filter (filterMatches f)).length ++
            " documents at once. Maximum 10 allowed. Set safeMode: false to override.")
          "deleteMany" c, docs))
    ∧ (MongoDeleteTool.execute true
        { collection := c, operation := "deleteMany", filter := f,
          confirmDeletion := some true, safeMode := some false } docs
      = (.ok ⟨"deleteMany", c, (docs.filter (filterMatches f)).length, none,
          some (((docs.filter (filterMatches f)).take 100).take
            ((docs.filter (filterMatches f)).length)), some f⟩,
        docs.filter (fun d => !(filterMatches f d)))) := by
  have hlen : ¬(((docs.filter (filterMatches f)).take 100).length = 0) := by
    simp only [List.length_take]
    omega
  constructor
  · simp [MongoDeleteTool.execute, hf, hn]
  · simp [MongoDeleteTool.execute, hf, hlen]
    have hpos : 0 < (docs.filter (filterMatches f)).length := by omega
    obtain ⟨x, hx⟩ := List.exists_mem_of_length_pos hpos
    have hx' := List.mem_filter.mp hx
    exact ⟨x, hx'.1, hx'.2⟩

/-- C2 witness: on a collection of 11 documents all matching the filter,
the confirmed deleteMany fails under default safe mode with the guard error
naming 11, and succeeds with deletedCount 11 when safeMode is false. -/
theorem deleteMany_safe_mode_witness :
    (([(("a" : String), Value.num 1)] ≠ [])
      ∧ 10 < (docs11.filter (filterMatches [("a", Value.num 1)])).length)
    ∧ ((MongoDeleteTool.execute true
        { collection := "users", operation := "deleteMany",
          filter := [("a", .num 1)], confirmDeletion := some true } docs11
      = (.err ("Safe mode: Cannot delete " ++
            toString (docs11.filter (filterMatches [("a", Value.num 1)])).length ++
            " documents at once. Maximum 10 allowed. Set safeMode: false to override.")
          "deleteMany" "users", docs11))
    ∧ (MongoDeleteTool.execute true
        { collection := "users", operation := "deleteMany",
          filter := [("a", .num 1)], confirmDeletion := some true,
          safeMode := some false } docs11
      = (.ok ⟨"deleteMany", "users",
          (docs11.filter (filterMatches [("a", Value.num 1)])).length, none,
          some (((docs11.filter (filterMatches [("a", Value.num 1)])).take 100).take
            ((docs11.filter (filterMatches [("a", Value.num 1)])).length)),
          some [("a", .num 1)]⟩,
        docs11.filter (fun d => !(filterMatches [("a", Value.num 1)] d))))) :=
  ⟨⟨by decide, by decide⟩,
    deleteMany_safe_mode "users" [("a", .num 1)] docs11 (by decide) (by decide)⟩

/-- Lookup after Map.set with the same key returns the value just set. -/
theorem mapGet_mapSet_self {α : Type} (m : List (String × α)) (k : String)
    (v : α) : mapGet (mapSet m k v) k = some v := by
  induction m with
  | nil => simp [mapSet, mapGet]
  | cons hd tl ih =>
      obtain ⟨k', v'⟩ := hd
      by_cases h : k' = k
      · simp [mapSet, mapGet, h]
      · simp [mapSet, mapGet, h, ih]

/-- Lookup commutes with mapping a function over the values of an
association list. -/
theorem mapGet_map {α β : Type} (l : List (String × α)) (g : α → β)
    (k : String) :
    mapGet (l.map fun nt => (nt.1, g nt.2)) k = (mapGet l k).map g := by
  induction l with
  | nil => simp [mapGet]
  | cons hd tl ih =>
      obtain ⟨k', v'⟩ := hd
      by_cases h : k' = k
      · simp [mapGet, h]
      · simp [mapGet, h, ih]

/-- C5 counterexample: registering a tool whose name is already present
does not fail and does not leave the registry unchanged: with a tool named
t (description old) registered, registering another tool named t
(description new) changes the registry, and lookup of t afterwards returns
the new tool. -/
theorem register_duplicate_replaces :
    ((mapGet (registerTool stWithOld toolNewT).tools "t").map
        (fun t => t.description) = some "new")
    ∧ ((mapGet stWithOld.tools "t").map (fun t => t.description) = some "old")
    ∧ (registerTool stWithOld toolNewT).tools ≠ stWithOld.tools := by
  refine ⟨rfl, rfl, ?_⟩
  intro h
  have h2 := congrArg (fun l => (mapGet l "t").map (fun t => t.description)) h
  exact absurd h2 (by decide)

/-- C5 amended: register(tool) never fails; it stores the tool under its
name, replacing any existing registration with that name in place, so a
subsequent lookup of the name returns the tool just registered and the
registry keys stay unique. -/
theorem register_lookup_returns_new (st : AgentState) (tool : RegTool) :
    mapGet (registerTool st tool).tools tool.name = some tool :=
  mapGet_mapSet_self st.tools tool.name tool

/-- C9: registering a tool and then reading getToolInfo returns, under the
tool name, an entry whose parameters field is the very schema the tool was
registered with (and likewise its name and description). -/
theorem getToolInfo_roundtrip (st : AgentState) (tool : RegTool) :
    mapGet (getToolInfo (registerTool st tool)) tool.name
      = some ⟨tool.name, tool.description, tool.parameters⟩ := by
  unfold getToolInfo
  rw [mapGet_map ((registerTool st tool).tools)
    (fun t => ToolInfo.mk t.name t.description t.parameters) tool.name,
    register_lookup_returns_new]
  rfl

/-- The result of a single tool call always carries that call's id. -/
theorem execOneCall_id (tools : Registry) (tc : ToolCall) :
    (execOneCall tools tc).tool_call_id = tc.id := by
  unfold execOneCall
  rcases tc with ⟨id, name, args⟩
  cases args with
  | error m => rfl
  | ok a =>
      cases h : mapGet tools name with
      | none => simp [h]
      | some tool =>
          cases h2 : tool.run a with
          | error m => simp [h, h2]
          | ok r => simp [h, h2]

/-- C7: a batch of tool calls yields exactly one result per request, each
correlated by its own call id; the result at each position is computed from
that call alone (an unparsable argument string, an unknown tool name, or a
raised exception turns into a failure payload for that call without
touching the others, and the batch splits over concatenation); and on a
turn with tool calls the conversation gains one tool message per result,
in order, each carrying its result and call id. -/
theorem toolCalls_isolated (tools : Registry) (calls : List ToolCall) :
    (executeToolCalls tools calls).length = calls.length
    ∧ (∀ i : Nat, (executeToolCalls tools calls)[i]?
        = (calls[i]?).map (execOneCall tools))
    ∧ (∀ i : Nat, ((executeToolCalls tools calls)[i]?).map
          (fun r => r.tool_call_id)
        = (calls[i]?).map (fun tc => tc.id))
    ∧ (∀ pre post : List ToolCall,
        executeToolCalls tools (pre ++ post)
          = executeToolCalls tools pre ++ executeToolCalls tools post)
    ∧ (∀ (st : AgentState) (u : String) (resp : LLMResponse)
          (fc : Option String),
        st.tools = tools → resp.tool_calls = calls → 0 < calls.length →
        (processMessage st u resp fc).1.conversationHistory
          = st.conversationHistory
            ++ [{ role := "user", content := some u }]
            ++ [{ role := "assistant", content := some (resp.content.getD ""),
                  tool_calls := some calls }]
            ++ (executeToolCalls tools calls).map toolMessage
            ++ [{ role := "assistant", content := fc }]) := by
  refine ⟨by simp [executeToolCalls], ?_, ?_, ?_, ?_⟩
  · intro i
    simp [executeToolCalls, List.getElem?_map]
  · intro i
    simp [executeToolCalls, List.getElem?_map]
    cases calls[i]? with
    | none => rfl
    | some tc => simp [Function.comp, execOneCall_id]
  · intro pre post
    simp [executeToolCalls]
  · intro st u resp fc h1 h2 h3
    subst h1; subst h2
    simp [processMessage, h3]

/-- C7 witness: a batch of two calls, the first to an unknown tool and the
second to a registered one, produces two results and two tool messages,
correlated id1 and id2 in order. -/
theorem toolCalls_isolated_witness :
    ((registry0 : Registry) = registry0
      ∧ ([callUnknown, callKnown] : List ToolCall).length = 2
      ∧ 0 < ([callUnknown, callKnown] : List ToolCall).length)
    ∧ (processMessage ⟨registry0, []⟩ "hi"
        ⟨some "", [callUnknown, callKnown]⟩ (some "done")).1.conversationHistory
      = ([] : List Message)
        ++ [{ role := "user", content := some "hi" }]
        ++ [{ role := "assistant", content := some ((some "").getD ""),
              tool_calls := some [callUnknown, callKnown] }]
        ++ (executeToolCalls registry0 [callUnknown, callKnown]).map toolMessage
        ++ [{ role := "assistant", content := some "done" }] :=
  ⟨⟨rfl, rfl, by decide⟩,
    (toolCalls_isolated registry0 [callUnknown, callKnown]).2.2.2.2
      ⟨registry0, []⟩ "hi" ⟨some "", [callUnknown, callKnown]⟩ (some "done")
      rfl rfl (by decide)⟩

/-- C8: a successful turn whose first model response requests no tool calls
appends exactly two messages to the conversation history; one that requests
N tool calls (N at least 1) appends exactly N plus 3. -/
theorem processMessage_history_growth (st : AgentState) (u : String)
    (resp : LLMResponse) (fc : Option String) :
    (resp.tool_calls = [] →
      (processMessage st u resp fc).1.conversationHistory.length
        = st.conversationHistory.length + 2)
    ∧ (∀ n : Nat, resp.tool_calls.length = n → 0 < n →
      (processMessage st u resp fc).1.conversationHistory.length
        = st.conversationHistory.length + n + 3) := by
  constructor
  · intro h
    simp [processMessage, h]
  · intro n hn h
    subst hn
    simp [processMessage, h, executeToolCalls]
    omega

/-- C8 witness: a turn with no tool calls appends two messages to an empty
history, and a turn with one tool call appends four. -/
theorem processMessage_history_growth_witness :
    ((([] : List ToolCall) = [])
      ∧ (processMessage ⟨registry0, []⟩ "q" ⟨some "hi", []⟩ none).1.conversationHistory.length
        = (([] : List Message)).length + 2)
    ∧ ((([callKnown] : List ToolCall).length = 1 ∧ 0 < 1)
      ∧ (processMessage ⟨registry0, []⟩ "q" ⟨some "", [callKnown]⟩ (some "d")).1.conversationHistory.length
        = (([] : List Message)).length + 1 + 3) :=
  ⟨⟨rfl, (processMessage_history_growth ⟨registry0, []⟩ "q" ⟨some "hi", []⟩
      none).1 rfl⟩,
    ⟨⟨rfl, by decide⟩, (processMessage_history_growth ⟨registry0, []⟩ "q"
      ⟨some "", [callKnown]⟩ (some "d")).2 1 rfl (by decide)⟩⟩

/-- Getting a field just set returns the value set. -/
theorem Doc.get_set_self (d : Doc) (k : String) (v : Value) :
    (d.set k v).get k = some v := by
  induction d with
  | nil => simp [Doc.set, Doc.get]
  | cons hd tl ih =>
      obtain ⟨k', v'⟩ := hd
      by_cases h : k' = k
      · simp [Doc.set, Doc.get, h]
      · simp [Doc.set, Doc.get, h, ih]

/-- A truthy field is present and its value is truthy. -/
theorem truthyField_get (d : Doc) (k : String) (h : d.truthyField k = true) :
    ∃ v, d.get k = some v ∧ v.truthy = true := by
  unfold Doc.truthyField at h
  cases hg : d.get k with
  | none => rw [hg] at h; cases h
  | some v => rw [hg] at h; exact ⟨v, rfl, h⟩

/-- Tool-level id generation keeps the batch length. -/
theorem genIds_length : ∀ (ds : List Doc) (fresh : Nat),
    ((genIds ds fresh).1).length = ds.length := by
  intro ds
  induction ds with
  | nil => intro fresh; simp [genIds]
  | cons d rest ih =>
      intro fresh
      by_cases h : d.truthyField "_id" <;> simp [genIds, h, ih]

/-- Tool-level id generation consumes one supply value per document whose
_id is not truthy. -/
theorem genIds_final : ∀ (ds : List Doc) (fresh : Nat),
    (genIds ds fresh).2 = fresh + nonTruthyBefore ds ds.length := by
  intro ds
  induction ds with
  | nil => intro fresh; simp [genIds, nonTruthyBefore]
  | cons d rest ih =>
      intro fresh
      by_cases h : d.truthyField "_id"
      · simp [genIds, h, ih fresh, nonTruthyBefore, List.take_succ_cons,
          List.take_length]
      · simp [genIds, h, ih (fresh + 1), nonTruthyBefore,
          List.take_succ_cons, List.take_length]
        omega

/-- Element-wise description of tool-level id generation: a document with a
truthy _id is kept as is, any other document receives the generated
ObjectId whose counter value is the supply start plus the number of
generating documents before it. -/
theorem genIds_getElem : ∀ (ds : List Doc) (fresh i : Nat),
    ((genIds ds fresh).1)[i]?
      = (ds[i]?).map (fun d =>
          if d.truthyField "_id" then d
          else d.set "_id" (.oid (fresh + nonTruthyBefore ds i))) := by
  intro ds
  induction ds with
  | nil => intro fresh i; simp [genIds]
  | cons d rest ih =>
      intro fresh i
      by_cases h : d.truthyField "_id"
      · cases i with
        | zero => simp [genIds, h]
        | succ i =>
            have hnt : nonTruthyBefore (d :: rest) (i + 1)
                = nonTruthyBefore rest i := by
              simp [nonTruthyBefore, List.take_succ_cons, h]
            rw [show (genIds (d :: rest) fresh).1
                  = d :: (genIds rest fresh).1 from by simp [genIds, h]]
            simp only [List.getElem?_cons_succ]
            rw [ih fresh i]
            simp [hnt]
      · cases i with
        | zero => simp [genIds, h, nonTruthyBefore]
        | succ i =>
            have hnt : nonTruthyBefore (d :: rest) (i + 1)
                = nonTruthyBefore rest i + 1 := by
              simp [nonTruthyBefore, List.take_succ_cons, h]
            rw [show (genIds (d :: rest) fresh).1
                  = d.set "_id" (.oid fresh) :: (genIds rest (fresh + 1)).1
                from by simp [genIds, h]]
            simp only [List.getElem?_cons_succ]
            rw [ih (fresh + 1) i]
            cases hr : rest[i]? with
            | none => rfl
            | some dd =>
                by_cases hdd : dd.truthyField "_id"
                · simp [hdd]
                · simp [hdd, hnt]
                  have harith : fresh + 1 + nonTruthyBefore rest i
                      = fresh + (nonTruthyBefore rest i + 1) := by omega
                  rw [harith]

/-- Every document produced by tool-level id generation has an _id field. -/
theorem genIds_present : ∀ (ds : List Doc) (fresh : Nat),
    ∀ d ∈ (genIds ds fresh).1, (d.get "_id").isSome = true := by
  intro ds
  induction ds with
  | nil => intro fresh d hd; simp [genIds] at hd
  | cons a rest ih =>
      intro fresh d hd
      by_cases h : a.truthyField "_id"
      · simp [genIds, h] at hd
        rcases hd with rfl | hd
        · obtain ⟨v, hv, _⟩ := truthyField_get d "_id" h
          simp [hv]
        · exact ih fresh d hd
      · simp [genIds, h] at hd
        rcases hd with rfl | hd
        · simp [Doc.get_set_self]
        · exact ih (fresh + 1) d hd

/-- The driver adds no ids to documents that all already carry one. -/
theorem driverIds_noop : ∀ (l : List Doc) (fr : Nat),
    (∀ d ∈ l, (d.get "_id").isSome = true) → driverIds l fr = (l, fr) := by
  intro l
  induction l with
  | nil => intro fr h; simp [driverIds]
  | cons a rest ih =>
      intro fr h
      have ha := h a (by simp)
      cases hg : a.get "_id" with
      | none => rw [hg] at ha; cases ha
      | some v =>
          have hrest := ih fr (fun d hd => h d (by simp [hd]))
          simp [driverIds, hg, hrest]

/-- Driver-level id generation keeps the batch length. -/
theorem driverIds_length : ∀ (ds : List Doc) (fr : Nat),
    ((driverIds ds fr).1).length = ds.length := by
  intro ds
  induction ds with
  | nil => intro fr; simp [driverIds]
  | cons d rest ih =>
      intro fr
      cases hg : d.get "_id" with
      | some v => simp [driverIds, hg, ih]
      | none => simp [driverIds, hg, ih]

/-- Driver-level id generation consumes one supply value per document whose
_id is absent. -/
theorem driverIds_final : ∀ (ds : List Doc) (fr : Nat),
    (driverIds ds fr).2 = fr + absentBefore ds ds.length := by
  intro ds
  induction ds with
  | nil => intro fr; simp [driverIds, absentBefore]
  | cons d rest ih =>
      intro fr
      cases hg : d.get "_id" with
      | some v =>
          simp [driverIds, hg, ih fr, absentBefore, List.take_succ_cons,
            List.take_length, List.filter_cons]
      | none =>
          simp [driverIds, hg, ih (fr + 1), absentBefore,
            List.take_succ_cons, List.take_length, List.filter_cons]
          omega

/-- Element-wise description of driver-level id generation: a document with
an _id field is kept as is, any other document receives the generated
ObjectId whose counter value is the supply start plus the number of
id-less documents before it. -/
theorem driverIds_getElem : ∀ (ds : List Doc) (fr i : Nat),
    ((driverIds ds fr).1)[i]?
      = (ds[i]?).map (fun d =>
          if (d.get "_id").isNone then
            d.set "_id" (.oid (fr + absentBefore ds i))
          else d) := by
  intro ds
  induction ds with
  | nil => intro fr i; simp [driverIds]
  | cons d rest ih =>
      intro fr i
      cases hg : d.get "_id" with
      | some v =>
          cases i with
          | zero => simp [driverIds, hg]
          | succ i =>
              have hab : absentBefore (d :: rest) (i + 1)
                  = absentBefore rest i := by
                simp [absentBefore, List.take_succ_cons, List.filter_cons, hg]
              rw [show (driverIds (d :: rest) fr).1
                    = d :: (driverIds rest fr).1 from by simp [driverIds, hg]]
              simp only [List.getElem?_cons_succ]
              rw [ih fr i]
              simp [hab]
      | none =>
          cases i with
          | zero => simp [driverIds, hg, absentBefore]
          | succ i =>
              have hab : absentBefore (d :: rest) (i + 1)
                  = absentBefore rest i + 1 := by
                simp [absentBefore, List.take_succ_cons, List.filter_cons, hg]
              rw [show (driverIds (d :: rest) fr).1
                    = d.set "_id" (.oid fr) :: (driverIds rest (fr + 1)).1
                  from by simp [driverIds, hg]]
              simp only [List.getElem?_cons_succ]
              rw [ih (fr + 1) i]
              cases hr : rest[i]? with
              | none => rfl
              | some dd =>
                  by_cases hdd : (dd.get "_id").isNone
                  · simp [hdd, hab]
                    have harith : fr + 1 + absentBefore rest i
                        = fr + (absentBefore rest i + 1) := by omega
                    rw [harith]
                  · have hdd' : ¬(dd.get "_id" = none) := by
                      simpa [Option.isNone_iff_eq_none] using hdd
                    simp [hdd']

/-- The id-less-document count strictly increases past a position whose
document lacks an _id: distinct driver-generating positions receive
distinct counter values. -/
theorem absentBefore_lt (ds : List Doc) (i j : Nat) (hij : i < j)
    (hd : ∃ d, ds[i]? = some d ∧ (d.get "_id").isNone = true) :
    absentBefore ds i < absentBefore ds j := by
  obtain ⟨d, hget, hnone⟩ := hd
  have hi : i < ds.length := by
    by_contra hcon
    rw [List.getElem?_eq_none (by omega)] at hget
    cases hget
  have hd2 : ds[i] = d := by
    rw [List.getElem?_eq_getElem hi] at hget
    exact Option.some.inj hget
  have hsplit : ds.take j = ds.take i ++ (ds.drop i).take (j - i) := by
    conv_lhs => rw [show j = i + (j - i) by omega]
    rw [List.take_add]
  have hdrop : ds.drop i = d :: ds.drop (i + 1) := by
    rw [← List.getElem_cons_drop ds i hi, hd2]
  unfold absentBefore
  rw [hsplit, List.filter_append, List.length_append]
  have hpos : 0 < (((ds.drop i).take (j - i)).filter
      fun d => (d.get "_id").isNone).length := by
    rw [hdrop, show j - i = (j - i - 1) + 1 by omega, List.take_succ_cons,
      List.filter_cons]
    simp [hnone]
  omega

/-- The generating-document count strictly increases past a position whose
document has no truthy _id: distinct generating positions receive distinct
counter values. -/
theorem nonTruthyBefore_lt (ds : List Doc) (i j : Nat) (hij : i < j)
    (hd : ∃ d, ds[i]? = some d ∧ d.truthyField "_id" = false) :
    nonTruthyBefore ds i < nonTruthyBefore ds j := by
  obtain ⟨d, hget, hfalse⟩ := hd
  have hi : i < ds.length := by
    by_contra hcon
    rw [List.getElem?_eq_none (by omega)] at hget
    cases hget
  have hd2 : ds[i] = d := by
    rw [List.getElem?_eq_getElem hi] at hget
    exact Option.some.inj hget
  have hsplit : ds.take j = ds.take i ++ (ds.drop i).take (j - i) := by
    conv_lhs => rw [show j = i + (j - i) by omega]
    rw [List.take_add]
  have hdrop : ds.drop i = d :: ds.drop (i + 1) := by
    rw [← List.getElem_cons_drop ds i hi, hd2]
  unfold nonTruthyBefore
  rw [hsplit, List.filter_append, List.length_append]
  have hpos : 0 < (((ds.drop i).take (j - i)).filter
      fun d => !(d.truthyField "_id")).length := by
    rw [hdrop, show j - i = (j - i - 1) + 1 by omega, List.take_succ_cons,
      List.filter_cons]
    simp [hfalse]
  omega

/-- C6 counterexample: an insertOne with generateId true whose document
supplies its own (truthy) _id does not receive a generated identifier: the
stored document keeps the caller string as _id and the ObjectId supply is
left untouched, refuting that a document inserted with generateId true
always carries a generated identifier. -/
theorem insert_keeps_supplied_id :
    MongoInsertTool.execute true
      { collection := "users", operation := "insertOne",
        data := .one [("_id", .str "custom"), ("name", .str "x")],
        generateId := some true } [] 0
    = (.ok ⟨"insertOne", "users", 1, [.str "custom"],
        .one [("_id", .str "custom"), ("name", .str "x")]⟩,
      [[("_id", .str "custom"), ("name", .str "x")]], 0) := by
  decide

/-- C6 amended: every successfully inserted document receives a generated
unique _id unless the caller supplies its own _id, whether or not
generateId is disabled.  With generateId true or defaulted, a document
keeps a supplied truthy _id untouched (no identifier is generated for it)
and any other document receives the next tool-generated ObjectId; with
generateId false, a document whose _id field is present keeps it and any
other document still receives a driver-generated ObjectId.  In either mode
a generating document at position i receives the ObjectId numbered by the
supply start plus the count of generating documents before it, counts that
are strictly increasing and hence pairwise distinct. -/
theorem insert_generated_ids (c : String) (gid : Option Bool) :
    (gid.getD true = true →
      (∀ (d : Doc) (docs : List Doc) (fresh : Nat),
        (d.truthyField "_id" = true →
          ∃ v, d.get "_id" = some v ∧
            MongoInsertTool.execute true
              { collection := c, operation := "insertOne", data := .one d,
                generateId := gid } docs fresh
            = (.ok ⟨"insertOne", c, 1, [v], .one d⟩, docs ++ [d], fresh))
        ∧ (d.truthyField "_id" = false →
          MongoInsertTool.execute true
            { collection := c, operation := "insertOne", data := .one d,
              generateId := gid } docs fresh
          = (.ok ⟨"insertOne", c, 1, [.oid fresh],
              .one (d.set "_id" (.oid fresh))⟩,
            docs ++ [d.set "_id" (.oid fresh)], fresh + 1)))
      ∧ (∀ (ds docs : List Doc) (fresh : Nat), ds.length ≤ 100 →
          MongoInsertTool.execute true
            { collection := c, operation := "insertMany", data := .many ds,
              generateId := gid } docs fresh
          = (.ok ⟨"insertMany", c, ds.length,
              ((genIds ds fresh).1).filterMap (fun d => d.get "_id"),
              .many (genIds ds fresh).1⟩,
            docs ++ (genIds ds fresh).1,
            fresh + nonTruthyBefore ds ds.length)
          ∧ (∀ i : Nat, ((genIds ds fresh).1)[i]?
              = (ds[i]?).map (fun d =>
                  if d.truthyField "_id" then d
                  else d.set "_id" (.oid (fresh + nonTruthyBefore ds i))))))
    ∧ (gid.getD true = false →
      (∀ (d : Doc) (docs : List Doc) (fresh : Nat),
        (∀ v, d.get "_id" = some v →
          MongoInsertTool.execute true
            { collection := c, operation := "insertOne", data := .one d,
              generateId := gid } docs fresh
          = (.ok ⟨"insertOne", c, 1, [v], .one d⟩, docs ++ [d], fresh))
        ∧ (d.get "_id" = none →
          MongoInsertTool.execute true
            { collection := c, operation := "insertOne", data := .one d,
              generateId := gid } docs fresh
          = (.ok ⟨"insertOne", c, 1, [.oid fresh],
              .one (d.set "_id" (.oid fresh))⟩,
            docs ++ [d.set "_id" (.oid fresh)], fresh + 1)))
      ∧ (∀ (ds docs : List Doc) (fresh : Nat), ds.length ≤ 100 →
          MongoInsertTool.execute true
            { collection := c, operation := "insertMany", data := .many ds,
              generateId := gid } docs fresh
          = (.ok ⟨"insertMany", c, ds.length,
              ((driverIds ds fresh).1).filterMap (fun d => d.get "_id"),
              .many (driverIds ds fresh).1⟩,
            docs ++ (driverIds ds fresh).1,
            fresh + absentBefore ds ds.length)
          ∧ (∀ i : Nat, ((driverIds ds fresh).1)[i]?
              = (ds[i]?).map (fun d =>
                  if (d.get "_id").isNone then
                    d.set "_id" (.oid (fresh + absentBefore ds i))
                  else d))))
    ∧ (∀ (fresh0 : Nat) (ds : List Doc) (i j : Nat), i < j →
        (∃ d, ds[i]? = some d ∧ d.truthyField "_id" = false) →
        fresh0 + nonTruthyBefore ds i ≠ fresh0 + nonTruthyBefore ds j)
    ∧ (∀ (fresh0 : Nat) (ds : List Doc) (i j : Nat), i < j →
        (∃ d, ds[i]? = some d ∧ (d.get "_id").isNone = true) →
        fresh0 + absentBefore ds i ≠ fresh0 + absentBefore ds j) := by
  refine ⟨?_, ?_, ?_, ?_⟩
  · intro hgid
    constructor
    · intro d docs fresh
      constructor
      · intro ht
        obtain ⟨v, hv, _⟩ := truthyField_get d "_id" ht
        refine ⟨v, hv, ?_⟩
        simp [MongoInsertTool.execute, hgid, ht, hv]
      · intro hf
        simp [MongoInsertTool.execute, hgid, hf, Doc.get_set_self]
    · intro ds docs fresh hlen
      have h100 : ¬(ds.length > 100) := by omega
      have hnoop := driverIds_noop (genIds ds fresh).1 (genIds ds fresh).2
        (genIds_present ds fresh)
      constructor
      · rw [genIds_final ds fresh] at hnoop
        simp [MongoInsertTool.execute, hgid, h100, genIds_final, hnoop,
          genIds_length]
      · intro i
        exact genIds_getElem ds fresh i
  · intro hgid
    constructor
    · intro d docs fresh
      constructor
      · intro v hv
        simp [MongoInsertTool.execute, hgid, hv]
      · intro hnone
        simp [MongoInsertTool.execute, hgid, hnone]
    · intro ds docs fresh hlen
      have h100 : ¬(ds.length > 100) := by omega
      constructor
      · simp [MongoInsertTool.execute, hgid, h100, driverIds_final,
          driverIds_length]
      · intro i
        exact driverIds_getElem ds fresh i
  · intro fresh0 ds i j hij hd
    have := nonTruthyBefore_lt ds i j hij hd
    omega
  · intro fresh0 ds i j hij hd
    have := absentBefore_lt ds i j hij hd
    omega

/-- C6 amended witness: an insertOne with generateId true of a document
with no _id, against the supply counter at 5, stores the document with the
tool-generated ObjectId 5 and advances the supply; the same document with
generateId false, against the supply counter at 9, stores it with the
driver-generated ObjectId 9 and advances the supply. -/
theorem insert_generated_ids_witness :
    ((Option.getD (some true) true = true)
      ∧ (Doc.truthyField [("n", Value.num 7)] "_id" = false))
    ∧ (MongoInsertTool.execute true
        { collection := "users", operation := "insertOne",
          data := .one [("n", .num 7)], generateId := some true } [] 5
      = (.ok ⟨"insertOne", "users", 1, [.oid 5],
          .one (Doc.set [("n", Value.num 7)] "_id" (.oid 5))⟩,
        [] ++ [Doc.set [("n", Value.num 7)] "_id" (.oid 5)], 5 + 1))
    ∧ ((Option.getD (some false) true = false)
      ∧ (Doc.get [("n", Value.num 7)] "_id" = none))
    ∧ (MongoInsertTool.execute true
        { collection := "users", operation := "insertOne",
          data := .one [("n", .num 7)], generateId := some false } [] 9
      = (.ok ⟨"insertOne", "users", 1, [.oid 9],
          .one (Doc.set [("n", Value.num 7)] "_id" (.oid 9))⟩,
        [] ++ [Doc.set [("n", Value.num 7)] "_id" (.oid 9)], 9 + 1)) :=
  ⟨⟨rfl, by decide⟩,
    (((insert_generated_ids "users" (some true)).1 rfl).1
      [("n", .num 7)] [] 5).2 (by decide),
    ⟨rfl, rfl⟩,
    (((insert_generated_ids "users" (some false)).2.1 rfl).1
      [("n", .num 7)] [] 9).2 rfl⟩
